import Mathlib

/-!
Verification development for the bank data generator
(`src/generator/generator.py`, class `BankDataGenerator`).

Monetary values are modelled as exact rationals (`ℚ`).  Python's
`round(x, 2)` (round half to even at two decimal places) is modelled by
`round2` below.  The relational store, the in-process cache and the list of
inserted transaction records are modelled explicitly; a transient store
error raised by one of the SQL statements inside an atomic unit is modelled
by an `ErrPoint` parameter naming the statement that raises.  Per
`get_cursor` (lines 50-69): on an error the store transaction is rolled
back (store rows and inserted records revert to their state at entry) while
all Python-side cache mutations performed so far survive.
-/

/-- Round a rational to the nearest integer, ties to even. -/
def roundHalfEven (y : ℚ) : ℤ :=
  if y - ⌊y⌋ < 1/2 then ⌊y⌋
  else if y - ⌊y⌋ > 1/2 then ⌊y⌋ + 1
  else if ⌊y⌋ % 2 = 0 then ⌊y⌋ else ⌊y⌋ + 1

/-- Python `round(x, 2)`: round to 2 decimal places, ties to even. -/
def round2 (x : ℚ) : ℚ := (roundHalfEven (x * 100) : ℚ) / 100

/-- A cached / stored bank account row: `bank_account_id`, `balance`,
`currency` (the fields of the cache rows that `generate_transaction`
reads; see `initialize_cache`, lines 77-84). -/
structure Account where
  bank_account_id : Nat
  balance : ℚ
  currency : String
deriving Repr, DecidableEq

/-- A row of the `transaction_type` lookup table (lines 86-87). -/
structure TransactionType where
  type_id : Nat
  name : String
deriving Repr, DecidableEq

/-- A row inserted into the `transactions` table (lines 267-283 and
303-319): sender (nullable), receiver, amount, converted amount,
description, type and status. -/
structure Txn where
  sender_account_id : Option Nat
  receiver_account_id : Nat
  amount : ℚ
  converted_amount : ℚ
  description : String
  type_id : Nat
  status : String
deriving Repr, DecidableEq

/-- The state `generate_transaction` acts on: the authoritative store
balances (`bank_accounts` rows), the in-process cache `self.accounts`, and
the `transactions` table. -/
structure GenState where
  store : List Account
  cache : List Account
  txns : List Txn
deriving Repr, DecidableEq

/-- Which statement of the atomic unit raises a transient store error
(`noErr` = the whole unit commits).  The four named points are the debit
UPDATE (line 251), the failed-status INSERT (line 267), the credit UPDATE
(line 287) and the completed-status INSERT (line 303). -/
inductive ErrPoint
  | noErr
  | atDebit
  | atFailedInsert
  | atCredit
  | atCompletedInsert
deriving Repr, DecidableEq

/-- The fixed rate dict `rates = {'USD': 1.0, 'EUR': 0.85, 'RUB': 75.0,
'GBP': 0.73}` (line 244). -/
def rates (c : String) : Option ℚ :=
  if c = "USD" then some 1
  else if c = "EUR" then some (85/100)
  else if c = "RUB" then some 75
  else if c = "GBP" then some (73/100)
  else none

/-- Python `rates.get(currency, 1.0)` (lines 245-246): an unrecognized
currency falls back to the base rate 1. -/
def rateOf (c : String) : ℚ := (rates c).getD 1

/-- Lines 242-247: `converted_amount = amount` unless a sender exists and
its currency differs from the receiver's, in which case
`converted_amount = round(amount * from_rate / to_rate, 2)`. -/
def converted_amount (sender : Option Account) (receiver : Account) (amount : ℚ) : ℚ :=
  match sender with
  | some s =>
      if s.currency ≠ receiver.currency then
        round2 (amount * rateOf s.currency / rateOf receiver.currency)
      else amount
  | none => amount

/-- Lines 227-229: when there is no sender the randomly chosen type is
replaced by the first lookup entry named `deposit`
(`next((t for t in self.transaction_types if t['name'] == 'deposit'),
transaction_type)`); the random pick stands if no such entry exists. -/
def effectiveType (sender : Option Account) (types : List TransactionType)
    (chosen : TransactionType) : TransactionType :=
  match sender with
  | some _ => chosen
  | none => (types.find? (fun t => t.name = "deposit")).getD chosen

/-- One SQL `UPDATE bank_accounts SET balance = f(balance) WHERE
bank_account_id = id`: every row whose id matches gets its balance mapped
through `f`. -/
def storeMap (store : List Account) (id : Nat) (f : ℚ → ℚ) : List Account :=
  store.map (fun a =>
    if a.bank_account_id = id then { a with balance := f a.balance } else a)

/-- SQL row lookup by `bank_account_id` (also the value fetched by
`RETURNING balance`: the first row with that id after the update). -/
def findAcc (l : List Account) (id : Nat) : Option Account :=
  l.find? (fun a => a.bank_account_id = id)

/-- The cache update loop (lines 262-265 and 298-301): scan `self.accounts`
and overwrite the balance of the first entry with the matching id
(`break` after the first hit). -/
def cacheSetBalance : List Account → Nat → ℚ → List Account
  | [], _, _ => []
  | a :: rest, id, bal =>
      if a.bank_account_id = id then { a with balance := bal } :: rest
      else a :: cacheSetBalance rest id bal

/-- Rollback of the atomic unit per `get_cursor` (lines 60-64): store rows
and inserted records revert to their values at entry, while the in-process
cache keeps whatever mutations were made before the error. -/
def rollbackTo (st : GenState) (cache : List Account) : GenState :=
  { store := st.store, cache := cache, txns := st.txns }

/-- Lines 287-321 of `generate_transaction`: credit the receiver by
`converted_amount` (`UPDATE ... SET balance = balance + %s ... RETURNING
balance`), write the authoritative post-credit balance into the cache, then
insert the `completed` transaction record (sender possibly null).
`store`/`cache` are the store and cache as mutated by the sender phase. -/
def creditPhase (st : GenState) (store cache : List Account)
    (sender : Option Account) (receiver : Account) (amount conv : ℚ)
    (ttype : TransactionType) (description : String) (err : ErrPoint) : GenState :=
  if err = ErrPoint.atCredit then rollbackTo st cache
  else
    let store2 := storeMap store receiver.bank_account_id (fun b => b + conv)
    match findAcc store2 receiver.bank_account_id with
    | none => rollbackTo st cache
    | some rrow =>
        let cache2 := cacheSetBalance cache receiver.bank_account_id rrow.balance
        if err = ErrPoint.atCompletedInsert then rollbackTo st cache2
        else
          { store := store2, cache := cache2,
            txns := st.txns ++ [{ sender_account_id := sender.map (fun s => s.bank_account_id),
                                  receiver_account_id := receiver.bank_account_id,
                                  amount := amount, converted_amount := conv,
                                  description := description, type_id := ttype.type_id,
                                  status := "completed" }] }

/-- Lines 206-322 of `generate_transaction`, after participant selection:
`sender` is the cache record drawn at line 215 (`none` with probability
0.3), `receiver` the cache record drawn at lines 217-220, `amount` the
value drawn at line 223, `chosenType` the random pick of line 225 and
`description` the phrase of lines 231-240.  The sufficiency check at
line 250 compares the CACHED sender balance (`sender_account['balance']`)
with the amount; the debit (line 251) and credit (line 287) are single
atomic UPDATE statements against the store.  The scheduled-transfer
spawner (lines 324-327) runs outside this atomic unit and is not
modelled. -/
def generate_transaction (st : GenState) (sender : Option Account)
    (receiver : Account) (amount : ℚ) (chosenType : TransactionType)
    (types : List TransactionType) (description : String) (err : ErrPoint) : GenState :=
  let ttype := effectiveType sender types chosenType
  let conv := converted_amount sender receiver amount
  match sender with
  | some s =>
      if s.balance ≥ amount then
        if err = ErrPoint.atDebit then rollbackTo st st.cache
        else
          let store1 := storeMap st.store s.bank_account_id (fun b => b - amount)
          match findAcc store1 s.bank_account_id with
          | none => rollbackTo st st.cache
          | some srow =>
              let cache1 := cacheSetBalance st.cache s.bank_account_id srow.balance
              creditPhase st store1 cache1 (some s) receiver amount conv ttype description err
      else
        if err = ErrPoint.atFailedInsert then rollbackTo st st.cache
        else
          { store := st.store, cache := st.cache,
            txns := st.txns ++ [{ sender_account_id := some s.bank_account_id,
                                  receiver_account_id := receiver.bank_account_id,
                                  amount := amount, converted_amount := conv,
                                  description := description, type_id := ttype.type_id,
                                  status := "failed" }] }
  | none => creditPhase st st.store st.cache none receiver amount conv ttype description err

/-- A row of the `achievements` table: `achievement_id` and `name`. -/
structure Achievement where
  achievement_id : Nat
  name : String
deriving Repr, DecidableEq

/-- The store state read and written by `update_achievements`
(lines 378-414): `users` (user ids), `bank_accounts` as
(`bank_account_id`, `owner_id`) pairs, `transactions` as
(`receiver_account_id`, `amount`) pairs, the `achievements` lookup table
and the `user_achievements` grant table as (`user_id`, `achievement_id`)
pairs. -/
structure AchState where
  users : List Nat
  bank_accounts : List (Nat × Nat)
  transactions : List (Nat × ℚ)
  achievements : List Achievement
  user_achievements : List (Nat × Nat)
deriving Repr, DecidableEq

/-- The rows of the aggregate query of lines 381-390 contributed by one
user: `users LEFT JOIN bank_accounts ON owner_id LEFT JOIN transactions ON
bank_account_id = receiver_account_id`, i.e. one row per (owned account,
transaction received by that account) pair. -/
def userTxRows (s : AchState) (u : Nat) : List ((Nat × Nat) × (Nat × ℚ)) :=
  (s.bank_accounts.filter (fun ba => ba.2 = u)).flatMap
    (fun ba => (s.transactions.filter (fun t => t.1 = ba.1)).map (fun t => (ba, t)))

/-- `COUNT(t.transaction_id)` of the aggregate query, per user. -/
def tx_count (s : AchState) (u : Nat) : Nat := (userTxRows s u).length

/-- `SUM(CASE WHEN t.receiver_account_id = ba.bank_account_id THEN t.amount
ELSE 0 END)` of the aggregate query, per user (the join condition already
forces the CASE guard, so every joined row contributes its amount). -/
def total_received (s : AchState) (u : Nat) : ℚ :=
  ((userTxRows s u).map (fun r => r.2.2)).sum

/-- One `INSERT INTO user_achievements ... ON CONFLICT (user_id,
achievement_id) DO NOTHING`: the pair is appended unless already held. -/
def grantInsert (g : List (Nat × Nat)) (u aid : Nat) : List (Nat × Nat) :=
  if (u, aid) ∈ g then g else g ++ [(u, aid)]

/-- `INSERT INTO user_achievements (user_id, achievement_id) SELECT %s,
achievement_id FROM achievements WHERE name = nm ON CONFLICT DO NOTHING`:
one conflict-ignoring insert per achievement row named `nm`. -/
def grantByName (s : AchState) (g : List (Nat × Nat)) (u : Nat) (nm : String) :
    List (Nat × Nat) :=
  (s.achievements.filter (fun a => a.name = nm)).foldl
    (fun acc a => grantInsert acc u a.achievement_id) g

/-- The per-user body of the loop at lines 394-414: the three rules fire
independently (`tx_count >= 1` → First Transaction, `tx_count >= 50` →
Active User, `total_received >= 10000` → Savings Master). -/
def evalUser (s : AchState) (g : List (Nat × Nat)) (u : Nat) : List (Nat × Nat) :=
  let g1 := if 1 ≤ tx_count s u then grantByName s g u "First Transaction" else g
  let g2 := if 50 ≤ tx_count s u then grantByName s g1 u "Active User" else g1
  if 10000 ≤ total_received s u then grantByName s g2 u "Savings Master" else g2

/-- Lines 378-414, `update_achievements`: aggregate per user (the `HAVING
COUNT(t.transaction_id) > 0` clause keeps only users with at least one
received transaction), then run the three grant rules for each. -/
def update_achievements (s : AchState) : AchState :=
  let users_stats := s.users.filter (fun u => 0 < tx_count s u)
  { s with user_achievements := users_stats.foldl (evalUser s) s.user_achievements }

/-- A row of the `payment_system` table: id, rail name and the rail's
`last_number` counter. -/
structure PaymentSystem where
  payment_system_id : Nat
  payment_system : String
  last_number : Nat
deriving Repr, DecidableEq

/-- The fields of a `bank_accounts` row inserted by `create_account`
that the allocator claims concern. -/
structure BankAccountRow where
  account_number : String
  balance : ℚ
  currency : String
  owner_id : Nat
deriving Repr, DecidableEq

/-- The store state acted on by `create_account`: the `payment_system`
rails and the `bank_accounts` rows. -/
structure AccountState where
  rails : List PaymentSystem
  bank_accounts : List BankAccountRow
deriving Repr, DecidableEq

/-- Big-endian decimal digit characters of `n`, as produced by Python's
decimal formatting (empty for 0; `Nat.digits` is little-endian, so
reverse). -/
def decimalDigitsBE (n : Nat) : List Char :=
  ((Nat.digits 10 n).map Nat.digitChar).reverse

/-- Zero-pad a digit string on the left to a minimum width of 6. -/
def pad6 (l : List Char) : List Char :=
  List.replicate (6 - l.length) '0' ++ l

/-- Line 148: `account_number = f"{payment_system['payment_system']}{last_number:06d}"`. -/
def formatAccountNumber (name : String) (n : Nat) : String :=
  name ++ String.mk (pad6 (decimalDigitsBE n))

/-- Decimal value of a digit character (proof-side decoder, used to show
that `formatAccountNumber` is injective in the counter). -/
def charToDigit (c : Char) : Nat := c.toNat - 48

/-- Numeric value of a big-endian digit string (proof-side decoder). -/
def readDecimal (l : List Char) : Nat :=
  Nat.ofDigits 10 ((l.map charToDigit).reverse)

/-- Lines 139-171 of `create_account`, after the owner and rail are drawn:
read the rail's counter under `SELECT ... FOR UPDATE`, format the account
number, increment the counter, and insert the `bank_accounts` row, all in
one atomic unit (`get_cursor`).  `err = true` models a store error raised
later inside the unit: the whole unit rolls back, reverting both the
counter advance and the insert.  A missing rail makes `fetchone()` return
`None`, so the subscript raises and the unit rolls back (`none` result). -/
def create_account (st : AccountState) (psId : Nat) (owner_id : Nat)
    (balance : ℚ) (currency : String) (err : Bool) :
    AccountState × Option String :=
  match st.rails.find? (fun r => r.payment_system_id = psId) with
  | none => (st, none)
  | some ps =>
      let account_number := formatAccountNumber ps.payment_system ps.last_number
      let rails' := st.rails.map (fun r =>
        if r.payment_system_id = psId then { r with last_number := r.last_number + 1 } else r)
      if err then (st, none)
      else
        ({ rails := rails',
           bank_accounts := st.bank_accounts ++
             [{ account_number := account_number, balance := balance,
                currency := currency, owner_id := owner_id }] },
         some account_number)

/-- A run of `k` successive successful `create_account` calls against the
same rail, returning the final state and the issued account numbers in
order. -/
def issueRun (st : AccountState) (psId : Nat) (owner_id : Nat) (balance : ℚ)
    (currency : String) : Nat → AccountState × List String
  | 0 => (st, [])
  | k + 1 =>
      match create_account st psId owner_id balance currency false with
      | (st', some num) =>
          let rest := issueRun st' psId owner_id balance currency k
          (rest.1, num :: rest.2)
      | (st', none) => (st', [])

/-- Concrete two-invocation history exhibiting a stale-high cache entry:
a clean state, then a deposit of 500 to account 2 whose atomic unit raises
at the completed-record INSERT (store rolled back, cache keeps the
post-credit balance 550). -/
def C1state0 : GenState :=
  ⟨[⟨2, 50, "USD"⟩, ⟨3, 10, "USD"⟩], [⟨2, 50, "USD"⟩, ⟨3, 10, "USD"⟩], []⟩

/-- The state after the rolled-back deposit: store balances are unchanged
but the cache entry for account 2 reads 550 while the store row reads 50. -/
def C1state1 : GenState :=
  generate_transaction C1state0 none ⟨2, 50, "USD"⟩ 500 ⟨9, "deposit"⟩
    [⟨9, "deposit"⟩, ⟨7, "transfer"⟩] "Cash deposit" ErrPoint.atCompletedInsert

/-- A subsequent committed transfer drawn with account 2 as sender
(the sender record is exactly the cache entry of `C1state1`). -/
def C1state2 : GenState :=
  generate_transaction C1state1 (findAcc C1state1.cache 2) ⟨3, 10, "USD"⟩ 120
    ⟨7, "transfer"⟩ [⟨9, "deposit"⟩, ⟨7, "transfer"⟩] "Payment" ErrPoint.noErr

example : round2 (2000/17) = 11765/100 := by norm_num [round2, roundHalfEven]

example :
    converted_amount (some ⟨1, 500, "USD"⟩) ⟨2, 300, "EUR"⟩ 100 = 11765/100 := by
  simp [converted_amount, rateOf, rates]
  norm_num [round2, roundHalfEven]

theorem roundHalfEven_nonneg {y : ℚ} (hy : 0 ≤ y) : 0 ≤ roundHalfEven y := by
  have hn : (0:ℤ) ≤ ⌊y⌋ := Int.floor_nonneg.mpr hy
  unfold roundHalfEven
  split
  · exact hn
  · split
    · omega
    · split <;> omega

theorem round2_nonneg {x : ℚ} (hx : 0 ≤ x) : 0 ≤ round2 x := by
  have h : 0 ≤ roundHalfEven (x * 100) := roundHalfEven_nonneg (by positivity)
  unfold round2
  have h' : (0:ℚ) ≤ (roundHalfEven (x * 100) : ℚ) := by exact_mod_cast h
  positivity

theorem rateOf_pos (c : String) : 0 < rateOf c := by
  unfold rateOf rates
  split <;> try norm_num
  split <;> try norm_num
  split <;> try norm_num
  split <;> norm_num

theorem converted_amount_nonneg (sender : Option Account) (receiver : Account)
    {amount : ℚ} (h : 0 ≤ amount) :
    0 ≤ converted_amount sender receiver amount := by
  cases sender with
  | none => simpa [converted_amount] using h
  | some s =>
      simp only [converted_amount]
      split
      · refine round2_nonneg ?_
        have h1 := rateOf_pos s.currency
        have h2 := rateOf_pos receiver.currency
        positivity
      · exact h

theorem findAcc_storeMap (store : List Account) (tid id : Nat) (f : ℚ → ℚ) :
    findAcc (storeMap store tid f) id =
      (findAcc store id).map
        (fun a => if a.bank_account_id = tid then { a with balance := f a.balance } else a) := by
  unfold findAcc storeMap
  rw [List.find?_map]
  have hpg : ((fun a : Account => decide (a.bank_account_id = id)) ∘ fun a =>
      if a.bank_account_id = tid then { a with balance := f a.balance } else a)
      = (fun a : Account => decide (a.bank_account_id = id)) := by
    funext a
    by_cases h : a.bank_account_id = tid <;> simp [h]
  rw [hpg]

theorem findAcc_storeMap_self (store : List Account) (id : Nat) (f : ℚ → ℚ) :
    findAcc (storeMap store id f) id =
      (findAcc store id).map (fun a => { a with balance := f a.balance }) := by
  rw [findAcc_storeMap]
  cases hf : findAcc store id with
  | none => rfl
  | some a0 =>
      have hp : a0.bank_account_id = id := by
        have := List.find?_some (p := fun a : Account => a.bank_account_id = id)
          (by simpa [findAcc] using hf)
        simpa using this
      simp [hp]

theorem findAcc_storeMap_ne (store : List Account) {tid id : Nat} (f : ℚ → ℚ)
    (h : id ≠ tid) :
    findAcc (storeMap store tid f) id = findAcc store id := by
  rw [findAcc_storeMap]
  cases hf : findAcc store id with
  | none => rfl
  | some a0 =>
      have hp : a0.bank_account_id = id := by
        have := List.find?_some (p := fun a : Account => a.bank_account_id = id)
          (by simpa [findAcc] using hf)
        simpa using this
      have : ¬ a0.bank_account_id = tid := by omega
      simp [this]

theorem findAcc_cacheSet_self (cache : List Account) (id : Nat) (bal : ℚ) :
    findAcc (cacheSetBalance cache id bal) id =
      (findAcc cache id).map (fun a => { a with balance := bal }) := by
  induction cache with
  | nil => rfl
  | cons a rest ih =>
      by_cases h : a.bank_account_id = id
      · simp only [cacheSetBalance, if_pos h]
        unfold findAcc
        rw [List.find?_cons_of_pos _ (by simp [h]), List.find?_cons_of_pos _ (by simp [h])]
        rfl
      · simp only [cacheSetBalance, if_neg h]
        unfold findAcc
        rw [List.find?_cons_of_neg _ (by simp [h]), List.find?_cons_of_neg _ (by simp [h])]
        exact ih

theorem findAcc_cacheSet_ne (cache : List Account) {tid id : Nat} (bal : ℚ)
    (h : id ≠ tid) :
    findAcc (cacheSetBalance cache tid bal) id = findAcc cache id := by
  induction cache with
  | nil => rfl
  | cons a rest ih =>
      by_cases ha : a.bank_account_id = tid
      · simp only [cacheSetBalance, if_pos ha]
        have hne : ¬ a.bank_account_id = id := by omega
        unfold findAcc
        rw [List.find?_cons_of_neg _ (by simp [hne]), List.find?_cons_of_neg _ (by simp [hne])]
      · simp only [cacheSetBalance, if_neg ha]
        by_cases hb : a.bank_account_id = id
        · unfold findAcc
          rw [List.find?_cons_of_pos _ (by simp [hb]), List.find?_cons_of_pos _ (by simp [hb])]
        · unfold findAcc
          rw [List.find?_cons_of_neg _ (by simp [hb]), List.find?_cons_of_neg _ (by simp [hb])]
          exact ih

theorem creditPhase_commit_eq (st : GenState) (store cache : List Account)
    (sender : Option Account) (receiver rrow : Account) (amount conv : ℚ)
    (ttype : TransactionType) (d : String)
    (hr : findAcc store receiver.bank_account_id = some rrow) :
    creditPhase st store cache sender receiver amount conv ttype d ErrPoint.noErr =
      { store := storeMap store receiver.bank_account_id (fun b => b + conv),
        cache := cacheSetBalance cache receiver.bank_account_id (rrow.balance + conv),
        txns := st.txns ++ [{ sender_account_id := sender.map (fun s => s.bank_account_id),
                              receiver_account_id := receiver.bank_account_id,
                              amount := amount, converted_amount := conv,
                              description := d, type_id := ttype.type_id,
                              status := "completed" }] } := by
  simp only [creditPhase]
  rw [if_neg (by decide), findAcc_storeMap_self, hr]
  simp

theorem creditPhase_atCredit (st : GenState) (store cache : List Account)
    (sender : Option Account) (receiver : Account) (amount conv : ℚ)
    (ttype : TransactionType) (d : String) :
    creditPhase st store cache sender receiver amount conv ttype d ErrPoint.atCredit =
      rollbackTo st cache := by
  simp [creditPhase]

theorem creditPhase_atCompletedInsert (st : GenState) (store cache : List Account)
    (sender : Option Account) (receiver rrow : Account) (amount conv : ℚ)
    (ttype : TransactionType) (d : String)
    (hr : findAcc store receiver.bank_account_id = some rrow) :
    creditPhase st store cache sender receiver amount conv ttype d ErrPoint.atCompletedInsert =
      rollbackTo st (cacheSetBalance cache receiver.bank_account_id (rrow.balance + conv)) := by
  simp only [creditPhase]
  rw [if_neg (by decide), findAcc_storeMap_self, hr]
  simp

theorem generate_transaction_debit_eq (st : GenState) (s : Account)
    (receiver srow : Account) (amount : ℚ) (chosenType : TransactionType)
    (types : List TransactionType) (d : String) (err : ErrPoint)
    (hbal : amount ≤ s.balance)
    (hs : findAcc st.store s.bank_account_id = some srow)
    (herr : err ≠ ErrPoint.atDebit) :
    generate_transaction st (some s) receiver amount chosenType types d err =
      creditPhase st (storeMap st.store s.bank_account_id (fun b => b - amount))
        (cacheSetBalance st.cache s.bank_account_id (srow.balance - amount))
        (some s) receiver amount (converted_amount (some s) receiver amount)
        chosenType d err := by
  simp only [generate_transaction, effectiveType]
  rw [if_pos hbal, if_neg (by simpa using herr), findAcc_storeMap_self, hs]
  simp

theorem generate_transaction_failed_eq (st : GenState) (s : Account)
    (receiver : Account) (amount : ℚ) (chosenType : TransactionType)
    (types : List TransactionType) (d : String)
    (h : s.balance < amount) :
    generate_transaction st (some s) receiver amount chosenType types d ErrPoint.noErr =
      { store := st.store, cache := st.cache,
        txns := st.txns ++ [{ sender_account_id := some s.bank_account_id,
                              receiver_account_id := receiver.bank_account_id,
                              amount := amount,
                              converted_amount := converted_amount (some s) receiver amount,
                              description := d, type_id := chosenType.type_id,
                              status := "failed" }] } := by
  simp only [generate_transaction, effectiveType]
  rw [if_neg (not_le.mpr h), if_neg (by decide)]

/-- C2: when a sender exists and its balance is strictly below the drawn
amount, the invocation inserts exactly one `failed` transaction record
carrying sender, receiver, amount, converted amount, description and type,
and stops: the store balances and the cache are unchanged (no debit, no
credit). -/
theorem C2_insufficient_funds (st : GenState) (s receiver : Account)
    (amount : ℚ) (chosenType : TransactionType) (types : List TransactionType)
    (d : String)
    (h : s.balance < amount) :
    (generate_transaction st (some s) receiver amount chosenType types d
        ErrPoint.noErr).store = st.store ∧
    (generate_transaction st (some s) receiver amount chosenType types d
        ErrPoint.noErr).cache = st.cache ∧
    (generate_transaction st (some s) receiver amount chosenType types d
        ErrPoint.noErr).txns =
      st.txns ++ [{ sender_account_id := some s.bank_account_id,
                    receiver_account_id := receiver.bank_account_id,
                    amount := amount,
                    converted_amount := converted_amount (some s) receiver amount,
                    description := d, type_id := chosenType.type_id,
                    status := "failed" }] := by
  rw [generate_transaction_failed_eq st s receiver amount chosenType types d h]
  exact ⟨rfl, rfl, rfl⟩

/-- C2 witness: scenario A — sender balance 50.00, amount 120.00. -/
theorem C2_insufficient_funds_witness :
    ((50 : ℚ) < 120) ∧
    ((generate_transaction ⟨[⟨1, 50, "USD"⟩, ⟨2, 200, "USD"⟩],
          [⟨1, 50, "USD"⟩, ⟨2, 200, "USD"⟩], []⟩
        (some ⟨1, 50, "USD"⟩) ⟨2, 200, "USD"⟩ 120 ⟨7, "transfer"⟩
        [⟨7, "transfer"⟩] "Payment" ErrPoint.noErr).store =
        [⟨1, 50, "USD"⟩, ⟨2, 200, "USD"⟩] ∧
     (generate_transaction ⟨[⟨1, 50, "USD"⟩, ⟨2, 200, "USD"⟩],
          [⟨1, 50, "USD"⟩, ⟨2, 200, "USD"⟩], []⟩
        (some ⟨1, 50, "USD"⟩) ⟨2, 200, "USD"⟩ 120 ⟨7, "transfer"⟩
        [⟨7, "transfer"⟩] "Payment" ErrPoint.noErr).cache =
        [⟨1, 50, "USD"⟩, ⟨2, 200, "USD"⟩] ∧
     (generate_transaction ⟨[⟨1, 50, "USD"⟩, ⟨2, 200, "USD"⟩],
          [⟨1, 50, "USD"⟩, ⟨2, 200, "USD"⟩], []⟩
        (some ⟨1, 50, "USD"⟩) ⟨2, 200, "USD"⟩ 120 ⟨7, "transfer"⟩
        [⟨7, "transfer"⟩] "Payment" ErrPoint.noErr).txns =
        [] ++ [{ sender_account_id := some 1, receiver_account_id := 2,
                 amount := 120,
                 converted_amount := converted_amount (some ⟨1, 50, "USD"⟩) ⟨2, 200, "USD"⟩ 120,
                 description := "Payment", type_id := 7, status := "failed" }]) :=
  ⟨by norm_num,
   C2_insufficient_funds ⟨[⟨1, 50, "USD"⟩, ⟨2, 200, "USD"⟩],
       [⟨1, 50, "USD"⟩, ⟨2, 200, "USD"⟩], []⟩
     ⟨1, 50, "USD"⟩ ⟨2, 200, "USD"⟩ 120 ⟨7, "transfer"⟩
     [⟨7, "transfer"⟩] "Payment" (by norm_num)⟩

/-- C3: when a sender exists and its balance covers the drawn amount, the
committed invocation debits the sender's store row by exactly `amount`,
credits the receiver's store row by exactly the converted amount, and
appends exactly one `completed` transaction record. -/
theorem C3_completed_transfer (st : GenState) (s receiver srow rrow : Account)
    (amount : ℚ) (chosenType : TransactionType) (types : List TransactionType)
    (d : String)
    (hbal : amount ≤ s.balance)
    (hs : findAcc st.store s.bank_account_id = some srow)
    (hr : findAcc st.store receiver.bank_account_id = some rrow)
    (hne : receiver.bank_account_id ≠ s.bank_account_id) :
    findAcc (generate_transaction st (some s) receiver amount chosenType types d
        ErrPoint.noErr).store s.bank_account_id =
      some { srow with balance := srow.balance - amount } ∧
    findAcc (generate_transaction st (some s) receiver amount chosenType types d
        ErrPoint.noErr).store receiver.bank_account_id =
      some { rrow with balance :=
               rrow.balance + converted_amount (some s) receiver amount } ∧
    (generate_transaction st (some s) receiver amount chosenType types d
        ErrPoint.noErr).txns =
      st.txns ++ [{ sender_account_id := some s.bank_account_id,
                    receiver_account_id := receiver.bank_account_id,
                    amount := amount,
                    converted_amount := converted_amount (some s) receiver amount,
                    description := d, type_id := chosenType.type_id,
                    status := "completed" }] := by
  have hr1 : findAcc (storeMap st.store s.bank_account_id (fun b => b - amount))
      receiver.bank_account_id = some rrow := by
    rw [findAcc_storeMap_ne _ _ hne]; exact hr
  rw [generate_transaction_debit_eq st s receiver srow amount chosenType types d
        ErrPoint.noErr hbal hs (by decide),
      creditPhase_commit_eq st _ _ _ _ rrow _ _ _ _ hr1]
  refine ⟨?_, ?_, rfl⟩
  · rw [findAcc_storeMap_ne _ _ (Ne.symm hne), findAcc_storeMap_self, hs]
    simp
  · rw [findAcc_storeMap_self, hr1]
    simp

/-- C3 witness: scenario B — sender balance 500.00, amount 120.00, equal
currencies: the sender's store balance becomes 380.00 and the receiver's
increases by 120.00. -/
theorem C3_completed_transfer_witness :
    ((120 : ℚ) ≤ 500) ∧
    (findAcc [⟨1, 500, "USD"⟩, ⟨2, 200, "USD"⟩] 1 = some ⟨1, 500, "USD"⟩) ∧
    (findAcc [⟨1, 500, "USD"⟩, ⟨2, 200, "USD"⟩] 2 = some ⟨2, 200, "USD"⟩) ∧
    ((2 : Nat) ≠ 1) ∧
    (findAcc (generate_transaction ⟨[⟨1, 500, "USD"⟩, ⟨2, 200, "USD"⟩],
          [⟨1, 500, "USD"⟩, ⟨2, 200, "USD"⟩], []⟩
        (some ⟨1, 500, "USD"⟩) ⟨2, 200, "USD"⟩ 120 ⟨7, "transfer"⟩
        [⟨7, "transfer"⟩] "Payment" ErrPoint.noErr).store 1 =
      some ⟨1, 500 - 120, "USD"⟩ ∧
     findAcc (generate_transaction ⟨[⟨1, 500, "USD"⟩, ⟨2, 200, "USD"⟩],
          [⟨1, 500, "USD"⟩, ⟨2, 200, "USD"⟩], []⟩
        (some ⟨1, 500, "USD"⟩) ⟨2, 200, "USD"⟩ 120 ⟨7, "transfer"⟩
        [⟨7, "transfer"⟩] "Payment" ErrPoint.noErr).store 2 =
      some ⟨2, 200 + converted_amount (some ⟨1, 500, "USD"⟩) ⟨2, 200, "USD"⟩ 120, "USD"⟩ ∧
     (generate_transaction ⟨[⟨1, 500, "USD"⟩, ⟨2, 200, "USD"⟩],
          [⟨1, 500, "USD"⟩, ⟨2, 200, "USD"⟩], []⟩
        (some ⟨1, 500, "USD"⟩) ⟨2, 200, "USD"⟩ 120 ⟨7, "transfer"⟩
        [⟨7, "transfer"⟩] "Payment" ErrPoint.noErr).txns =
      [] ++ [{ sender_account_id := some 1, receiver_account_id := 2,
               amount := 120,
               converted_amount := converted_amount (some ⟨1, 500, "USD"⟩) ⟨2, 200, "USD"⟩ 120,
               description := "Payment", type_id := 7, status := "completed" }]) :=
  ⟨by norm_num, rfl, rfl, by decide,
   C3_completed_transfer ⟨[⟨1, 500, "USD"⟩, ⟨2, 200, "USD"⟩],
       [⟨1, 500, "USD"⟩, ⟨2, 200, "USD"⟩], []⟩
     ⟨1, 500, "USD"⟩ ⟨2, 200, "USD"⟩ ⟨1, 500, "USD"⟩ ⟨2, 200, "USD"⟩ 120
     ⟨7, "transfer"⟩ [⟨7, "transfer"⟩] "Payment" (by norm_num) rfl rfl (by decide)⟩

/-- C4: with a sender whose currency differs from the receiver's, the
converted amount is `round2 (amount * rate(from) / rate(to))` for the fixed
table USD 1.0, EUR 0.85, RUB 75.0, GBP 0.73; an unrecognized currency gets
the base rate 1; equal currencies or a missing sender pass the amount
through unchanged. -/
theorem C4_conversion_formula (s receiver : Account) (amount : ℚ) :
    (s.currency ≠ receiver.currency →
      converted_amount (some s) receiver amount =
        round2 (amount * rateOf s.currency / rateOf receiver.currency)) ∧
    (s.currency = receiver.currency →
      converted_amount (some s) receiver amount = amount) ∧
    converted_amount none receiver amount = amount ∧
    rates "USD" = some 1 ∧ rates "EUR" = some (85/100) ∧
    rates "RUB" = some 75 ∧ rates "GBP" = some (73/100) ∧
    (∀ c, rates c = none → rateOf c = 1) := by
  refine ⟨fun h => by simp [converted_amount, h],
          fun h => by simp [converted_amount, h],
          rfl, by simp [rates], by simp [rates], by simp [rates],
          by simp [rates], fun c hc => by simp [rateOf, hc]⟩

/-- C4 witness: a USD sender and EUR receiver have differing currencies and
the converted amount follows the formula. -/
theorem C4_conversion_formula_witness :
    (("USD" : String) ≠ "EUR") ∧
    converted_amount (some ⟨1, 500, "USD"⟩) ⟨2, 300, "EUR"⟩ 100 =
      round2 (100 * rateOf "USD" / rateOf "EUR") :=
  ⟨by decide, (C4_conversion_formula ⟨1, 500, "USD"⟩ ⟨2, 300, "EUR"⟩ 100).1 (by decide)⟩

/-- C5 counterexample: with sender currency USD (rate 1.0), receiver
currency EUR (rate 0.85) and amount 100.00, the code computes
`round(100 * 1.0 / 0.85, 2) = 117.65`, not 85.00 as the claim states. -/
theorem C5_scenario_c_counterexample :
    converted_amount (some ⟨1, 500, "USD"⟩) ⟨2, 300, "EUR"⟩ 100 ≠ 85 := by
  have h : converted_amount (some ⟨1, 500, "USD"⟩) ⟨2, 300, "EUR"⟩ 100 = 11765/100 := by
    simp [converted_amount, rateOf, rates]
    norm_num [round2, roundHalfEven]
  rw [h]; norm_num

/-- C5 amended: for sender currency USD, receiver currency EUR and amount
100.00 the computed converted amount is 117.65 (the code divides by the
receiver rate, so 100 * 1.0 / 0.85 rounded to 2 places). -/
theorem C5_scenario_c_amended :
    converted_amount (some ⟨1, 500, "USD"⟩) ⟨2, 300, "EUR"⟩ 100 = 11765/100 := by
  simp [converted_amount, rateOf, rates]
  norm_num [round2, roundHalfEven]

/-- C6: with no sender the transaction type is replaced by the first
lookup entry named `deposit` when one exists (otherwise the random pick
stands), no insufficiency check applies so no `failed` record can ever be
inserted, the receiver's store row is credited by exactly the drawn amount
(converted amount = amount), and the committed record has status
`completed` with a null sender. -/
theorem C6_deposit (st : GenState) (receiver rrow : Account) (amount : ℚ)
    (chosenType : TransactionType) (types : List TransactionType) (d : String)
    (hr : findAcc st.store receiver.bank_account_id = some rrow) :
    (effectiveType none types chosenType =
      (types.find? (fun t => t.name = "deposit")).getD chosenType) ∧
    (∀ err, (generate_transaction st none receiver amount chosenType types d err).txns
        = st.txns ∨
      (generate_transaction st none receiver amount chosenType types d err).txns
        = st.txns ++ [{ sender_account_id := none,
                        receiver_account_id := receiver.bank_account_id,
                        amount := amount, converted_amount := amount,
                        description := d,
                        type_id := (effectiveType none types chosenType).type_id,
                        status := "completed" }]) ∧
    findAcc (generate_transaction st none receiver amount chosenType types d
        ErrPoint.noErr).store receiver.bank_account_id =
      some { rrow with balance := rrow.balance + amount } ∧
    (generate_transaction st none receiver amount chosenType types d
        ErrPoint.noErr).txns =
      st.txns ++ [{ sender_account_id := none,
                    receiver_account_id := receiver.bank_account_id,
                    amount := amount, converted_amount := amount,
                    description := d,
                    type_id := (effectiveType none types chosenType).type_id,
                    status := "completed" }] := by
  have hconv : converted_amount none receiver amount = amount := rfl
  have hcommit : ∀ err, err ≠ ErrPoint.atCredit → err ≠ ErrPoint.atCompletedInsert →
      generate_transaction st none receiver amount chosenType types d err =
        { store := storeMap st.store receiver.bank_account_id (fun b => b + amount),
          cache := cacheSetBalance st.cache receiver.bank_account_id (rrow.balance + amount),
          txns := st.txns ++ [{ sender_account_id := none,
                                receiver_account_id := receiver.bank_account_id,
                                amount := amount, converted_amount := amount,
                                description := d,
                                type_id := (effectiveType none types chosenType).type_id,
                                status := "completed" }] } := by
    intro err h1 h2
    simp only [generate_transaction, hconv, creditPhase]
    rw [if_neg (by simpa using h1), findAcc_storeMap_self, hr]
    simp [h2]
  refine ⟨rfl, ?_, ?_, ?_⟩
  · intro err
    cases err with
    | noErr => right; rw [hcommit ErrPoint.noErr (by decide) (by decide)]
    | atDebit => right; rw [hcommit ErrPoint.atDebit (by decide) (by decide)]
    | atFailedInsert => right; rw [hcommit ErrPoint.atFailedInsert (by decide) (by decide)]
    | atCredit =>
        left
        simp [generate_transaction, creditPhase, rollbackTo]
    | atCompletedInsert =>
        left
        simp only [generate_transaction, hconv, creditPhase]
        rw [if_neg (by decide), findAcc_storeMap_self, hr]
        simp [rollbackTo]
  · rw [hcommit ErrPoint.noErr (by decide) (by decide)]
    simp only
    rw [findAcc_storeMap_self, hr]
    simp
  · rw [hcommit ErrPoint.noErr (by decide) (by decide)]

/-- C6 witness: scenario D — no sender, amount 250.00, a `deposit` category
present in the lookup set; the receiver's balance increases by 250.00 and
the record is `completed` with a null sender. -/
theorem C6_deposit_witness :
    (findAcc [⟨1, 500, "USD"⟩, ⟨2, 200, "USD"⟩] 2 = some ⟨2, 200, "USD"⟩) ∧
    (effectiveType none [⟨7, "transfer"⟩, ⟨9, "deposit"⟩] ⟨7, "transfer"⟩ =
      (([⟨7, "transfer"⟩, ⟨9, "deposit"⟩] : List TransactionType).find?
        (fun t => t.name = "deposit")).getD ⟨7, "transfer"⟩) ∧
    findAcc (generate_transaction ⟨[⟨1, 500, "USD"⟩, ⟨2, 200, "USD"⟩],
        [⟨1, 500, "USD"⟩, ⟨2, 200, "USD"⟩], []⟩
      none ⟨2, 200, "USD"⟩ 250 ⟨7, "transfer"⟩ [⟨7, "transfer"⟩, ⟨9, "deposit"⟩]
      "Cash deposit" ErrPoint.noErr).store 2 = some ⟨2, 200 + 250, "USD"⟩ :=
  ⟨rfl,
   (C6_deposit ⟨[⟨1, 500, "USD"⟩, ⟨2, 200, "USD"⟩],
        [⟨1, 500, "USD"⟩, ⟨2, 200, "USD"⟩], []⟩
      ⟨2, 200, "USD"⟩ ⟨2, 200, "USD"⟩ 250 ⟨7, "transfer"⟩
      [⟨7, "transfer"⟩, ⟨9, "deposit"⟩] "Cash deposit" rfl).1,
   (C6_deposit ⟨[⟨1, 500, "USD"⟩, ⟨2, 200, "USD"⟩],
        [⟨1, 500, "USD"⟩, ⟨2, 200, "USD"⟩], []⟩
      ⟨2, 200, "USD"⟩ ⟨2, 200, "USD"⟩ 250 ⟨7, "transfer"⟩
      [⟨7, "transfer"⟩, ⟨9, "deposit"⟩] "Cash deposit" rfl).2.2.1⟩

theorem storeMap_nonneg_add (store : List Account) (id : Nat) (c : ℚ)
    (h : ∀ a ∈ store, 0 ≤ a.balance) (hc : 0 ≤ c) :
    ∀ a ∈ storeMap store id (fun b => b + c), 0 ≤ a.balance := by
  intro a ha
  unfold storeMap at ha
  rcases List.mem_map.1 ha with ⟨b, hb, rfl⟩
  by_cases hid : b.bank_account_id = id
  · rw [if_pos hid]
    have hb0 := h b hb
    show 0 ≤ b.balance + c
    linarith
  · rw [if_neg hid]
    exact h b hb

theorem storeMap_nonneg_debit (store : List Account) (sid : Nat) (amount sBal : ℚ)
    (h0 : ∀ a ∈ store, 0 ≤ a.balance)
    (hcache : ∀ a ∈ store, a.bank_account_id = sid → sBal ≤ a.balance)
    (hamt : amount ≤ sBal) :
    ∀ a ∈ storeMap store sid (fun b => b - amount), 0 ≤ a.balance := by
  intro a ha
  unfold storeMap at ha
  rcases List.mem_map.1 ha with ⟨b, hb, rfl⟩
  by_cases hid : b.bank_account_id = sid
  · rw [if_pos hid]
    have h1 := hcache b hb hid
    show 0 ≤ b.balance - amount
    linarith
  · rw [if_neg hid]
    exact h0 b hb

theorem creditPhase_store_nonneg (st : GenState) (store cache : List Account)
    (sender : Option Account) (receiver : Account) (amount conv : ℚ)
    (ttype : TransactionType) (d : String) (err : ErrPoint)
    (h0 : ∀ a ∈ st.store, 0 ≤ a.balance)
    (h : ∀ a ∈ store, 0 ≤ a.balance)
    (hc : 0 ≤ conv) :
    ∀ a ∈ (creditPhase st store cache sender receiver amount conv ttype d err).store,
      0 ≤ a.balance := by
  unfold creditPhase rollbackTo
  dsimp only
  split
  · exact h0
  · split
    · exact h0
    · split
      · exact h0
      · exact storeMap_nonneg_add store receiver.bank_account_id conv h hc

/-- C1 amended: every committed invocation keeps all store balances
nonnegative PROVIDED the cached balance of the drawn sender does not
exceed its store balance (as holds in error-free runs, where the cache
mirrors authoritative post-write balances).  The sufficiency check at
line 250 reads the cached balance, so a cache entry above the store
balance — reachable after a rolled-back unit, see the counterexample —
voids the guarantee. -/
theorem C1_nonnegative_balances (st : GenState) (sender : Option Account)
    (receiver : Account) (amount : ℚ) (chosenType : TransactionType)
    (types : List TransactionType) (d : String) (err : ErrPoint)
    (hstore : ∀ a ∈ st.store, 0 ≤ a.balance)
    (hamt : 0 ≤ amount)
    (hsound : ∀ s ∈ sender, ∀ a ∈ st.store,
        a.bank_account_id = s.bank_account_id → s.balance ≤ a.balance) :
    ∀ a ∈ (generate_transaction st sender receiver amount chosenType types d err).store,
      0 ≤ a.balance := by
  cases sender with
  | none =>
      simp only [generate_transaction]
      exact creditPhase_store_nonneg st st.store st.cache none receiver amount _ _ d err
        hstore hstore (converted_amount_nonneg none receiver hamt)
  | some s =>
      have hss : s ∈ (some s : Option Account) := rfl
      simp only [generate_transaction]
      by_cases hb : s.balance ≥ amount
      · rw [if_pos hb]
        by_cases herr : err = ErrPoint.atDebit
        · rw [if_pos herr]
          exact hstore
        · rw [if_neg herr]
          have hdeb : ∀ a ∈ storeMap st.store s.bank_account_id (fun b => b - amount),
              0 ≤ a.balance :=
            storeMap_nonneg_debit st.store s.bank_account_id amount s.balance hstore
              (fun a ha hid => hsound s hss a ha hid) hb
          cases hfind : findAcc (storeMap st.store s.bank_account_id (fun b => b - amount))
              s.bank_account_id with
          | none => simp only [hfind]; exact hstore
          | some srow =>
              simp only [hfind]
              exact creditPhase_store_nonneg st _ _ (some s) receiver amount _ _ d err
                hstore hdeb (converted_amount_nonneg (some s) receiver hamt)
      · rw [if_neg hb]
        split
        · exact hstore
        · exact hstore

/-- C1 witness: an ordinary committed transfer from a clean state keeps
every balance nonnegative. -/
theorem C1_nonnegative_balances_witness :
    (∀ a ∈ ([⟨1, 500, "USD"⟩, ⟨2, 200, "USD"⟩] : List Account), 0 ≤ a.balance) ∧
    ((0 : ℚ) ≤ 120) ∧
    (∀ s ∈ (some ⟨1, 500, "USD"⟩ : Option Account),
       ∀ a ∈ ([⟨1, 500, "USD"⟩, ⟨2, 200, "USD"⟩] : List Account),
         a.bank_account_id = s.bank_account_id → s.balance ≤ a.balance) ∧
    (∀ a ∈ (generate_transaction ⟨[⟨1, 500, "USD"⟩, ⟨2, 200, "USD"⟩],
          [⟨1, 500, "USD"⟩, ⟨2, 200, "USD"⟩], []⟩
        (some ⟨1, 500, "USD"⟩) ⟨2, 200, "USD"⟩ 120 ⟨7, "transfer"⟩
        [⟨7, "transfer"⟩] "Payment" ErrPoint.noErr).store, 0 ≤ a.balance) := by
  have h1 : ∀ a ∈ ([⟨1, 500, "USD"⟩, ⟨2, 200, "USD"⟩] : List Account), 0 ≤ a.balance := by
    intro a ha
    simp only [List.mem_cons, List.not_mem_nil, or_false] at ha
    rcases ha with rfl | rfl <;> norm_num
  have h3 : ∀ s ∈ (some ⟨1, 500, "USD"⟩ : Option Account),
      ∀ a ∈ ([⟨1, 500, "USD"⟩, ⟨2, 200, "USD"⟩] : List Account),
        a.bank_account_id = s.bank_account_id → s.balance ≤ a.balance := by
    intro s hs a ha hid
    cases hs
    simp only [List.mem_cons, List.not_mem_nil, or_false] at ha
    rcases ha with rfl | rfl
    · norm_num
    · norm_num at hid
  exact ⟨h1, by norm_num,
    h3,
    C1_nonnegative_balances ⟨[⟨1, 500, "USD"⟩, ⟨2, 200, "USD"⟩],
        [⟨1, 500, "USD"⟩, ⟨2, 200, "USD"⟩], []⟩
      (some ⟨1, 500, "USD"⟩) ⟨2, 200, "USD"⟩ 120 ⟨7, "transfer"⟩
      [⟨7, "transfer"⟩] "Payment" ErrPoint.noErr h1 (by norm_num) h3⟩

/-- C1 counterexample: starting from a clean state (cache = store, all
balances nonnegative), a deposit whose unit rolls back at the final INSERT
leaves the cache entry for account 2 at 550 against a store balance of 50;
the next invocation draws that cache entry as sender, passes the line-250
check (550 >= 120), COMMITS a completed transaction, and leaves account 2's
store balance at -70 < 0 — a committed operation drives a balance
negative. -/
theorem C1_negative_balance_counterexample :
    (∀ a ∈ C1state0.store, 0 ≤ a.balance) ∧
    C1state0.cache = C1state0.store ∧
    C1state2.txns = [{ sender_account_id := some 2, receiver_account_id := 3,
                       amount := 120, converted_amount := 120,
                       description := "Payment", type_id := 7,
                       status := "completed" }] ∧
    findAcc C1state2.store 2 = some ⟨2, -70, "USD"⟩ ∧
    ¬ (∀ a ∈ C1state2.store, 0 ≤ a.balance) := by
  have h1 : C1state1 =
      ⟨[⟨2, 50, "USD"⟩, ⟨3, 10, "USD"⟩], [⟨2, 550, "USD"⟩, ⟨3, 10, "USD"⟩], []⟩ := by
    norm_num [C1state1, C1state0, generate_transaction, creditPhase, converted_amount,
      effectiveType, storeMap, findAcc, cacheSetBalance, rollbackTo, List.find?]
    decide
  have h2 : C1state2 =
      ⟨[⟨2, -70, "USD"⟩, ⟨3, 130, "USD"⟩], [⟨2, -70, "USD"⟩, ⟨3, 130, "USD"⟩],
       [{ sender_account_id := some 2, receiver_account_id := 3,
          amount := 120, converted_amount := 120,
          description := "Payment", type_id := 7, status := "completed" }]⟩ := by
    rw [C1state2, h1]
    norm_num [generate_transaction, creditPhase, converted_amount,
      effectiveType, storeMap, findAcc, cacheSetBalance, rollbackTo, List.find?]
    rfl
  refine ⟨?_, rfl, by rw [h2], by rw [h2]; rfl, ?_⟩
  · intro a ha
    simp only [C1state0, List.mem_cons, List.not_mem_nil, or_false] at ha
    rcases ha with rfl | rfl <;> norm_num
  · intro hall
    have := hall ⟨2, -70, "USD"⟩ (by rw [h2]; exact List.mem_cons_self _ _)
    norm_num at this

/-- C8 counterexample: the sufficiency check is NOT a locked in-unit read
of the store balance.  With the store row for account 1 at 10 (e.g. after
a concurrent external debit) but the cache entry at 500, the invocation
commits the debit even though the store balance (10) is below the amount
(120), and the committed store balance becomes -110 < 0. -/
theorem C8_unlocked_check_counterexample :
    findAcc ([⟨1, 10, "USD"⟩, ⟨2, 200, "USD"⟩] : List Account) 1 =
      some ⟨1, 10, "USD"⟩ ∧
    (10 : ℚ) < 120 ∧
    (generate_transaction ⟨[⟨1, 10, "USD"⟩, ⟨2, 200, "USD"⟩],
        [⟨1, 500, "USD"⟩, ⟨2, 200, "USD"⟩], []⟩
      (findAcc [⟨1, 500, "USD"⟩, ⟨2, 200, "USD"⟩] 1) ⟨2, 200, "USD"⟩ 120
      ⟨7, "transfer"⟩ [⟨7, "transfer"⟩] "Payment" ErrPoint.noErr).txns =
      [{ sender_account_id := some 1, receiver_account_id := 2, amount := 120,
         converted_amount := 120, description := "Payment", type_id := 7,
         status := "completed" }] ∧
    findAcc (generate_transaction ⟨[⟨1, 10, "USD"⟩, ⟨2, 200, "USD"⟩],
        [⟨1, 500, "USD"⟩, ⟨2, 200, "USD"⟩], []⟩
      (findAcc [⟨1, 500, "USD"⟩, ⟨2, 200, "USD"⟩] 1) ⟨2, 200, "USD"⟩ 120
      ⟨7, "transfer"⟩ [⟨7, "transfer"⟩] "Payment" ErrPoint.noErr).store 1 =
      some ⟨1, -110, "USD"⟩ := by
  have h2 : generate_transaction ⟨[⟨1, 10, "USD"⟩, ⟨2, 200, "USD"⟩],
        [⟨1, 500, "USD"⟩, ⟨2, 200, "USD"⟩], []⟩
      (findAcc [⟨1, 500, "USD"⟩, ⟨2, 200, "USD"⟩] 1) ⟨2, 200, "USD"⟩ 120
      ⟨7, "transfer"⟩ [⟨7, "transfer"⟩] "Payment" ErrPoint.noErr =
      ⟨[⟨1, -110, "USD"⟩, ⟨2, 320, "USD"⟩], [⟨1, -110, "USD"⟩, ⟨2, 320, "USD"⟩],
       [{ sender_account_id := some 1, receiver_account_id := 2, amount := 120,
          converted_amount := 120, description := "Payment", type_id := 7,
          status := "completed" }]⟩ := by
    norm_num [generate_transaction, creditPhase, converted_amount,
      effectiveType, storeMap, findAcc, cacheSetBalance, rollbackTo, List.find?]
    rfl
  exact ⟨rfl, by norm_num, by rw [h2], by rw [h2]; rfl⟩

/-- C8 amended: the balance-sufficiency check compares the in-process
CACHED sender balance (captured before the atomic unit) with the amount;
the debit itself is a single atomic UPDATE, but there is no locked
in-unit re-read, so the debit is applied whenever the cached balance
covers the amount, regardless of the store balance at entry. -/
theorem C8_check_uses_cached_balance (st : GenState) (s receiver srow rrow : Account)
    (amount : ℚ) (chosenType : TransactionType) (types : List TransactionType)
    (d : String)
    (hs : findAcc st.store s.bank_account_id = some srow)
    (hr : findAcc st.store receiver.bank_account_id = some rrow)
    (hne : receiver.bank_account_id ≠ s.bank_account_id) :
    (amount ≤ s.balance →
      findAcc (generate_transaction st (some s) receiver amount chosenType types d
          ErrPoint.noErr).store s.bank_account_id =
        some { srow with balance := srow.balance - amount }) ∧
    (s.balance < amount →
      (generate_transaction st (some s) receiver amount chosenType types d
          ErrPoint.noErr).store = st.store) := by
  constructor
  · intro hbal
    have hr1 : findAcc (storeMap st.store s.bank_account_id (fun b => b - amount))
        receiver.bank_account_id = some rrow := by
      rw [findAcc_storeMap_ne _ _ hne]; exact hr
    rw [generate_transaction_debit_eq st s receiver srow amount chosenType types d
          ErrPoint.noErr hbal hs (by decide),
        creditPhase_commit_eq st _ _ _ _ rrow _ _ _ _ hr1]
    simp only
    rw [findAcc_storeMap_ne _ _ (Ne.symm hne), findAcc_storeMap_self, hs]
    simp
  · intro hlt
    rw [generate_transaction_failed_eq st s receiver amount chosenType types d hlt]

/-- C8 amended witness: cached balance 500 against store balance 10 —
the debit is applied and the store row drops from 10 to 10 - 120. -/
theorem C8_check_uses_cached_balance_witness :
    (findAcc [⟨1, 10, "USD"⟩, ⟨2, 200, "USD"⟩] 1 = some ⟨1, 10, "USD"⟩) ∧
    (findAcc [⟨1, 10, "USD"⟩, ⟨2, 200, "USD"⟩] 2 = some ⟨2, 200, "USD"⟩) ∧
    ((2 : Nat) ≠ 1) ∧ ((120 : ℚ) ≤ 500) ∧
    findAcc (generate_transaction ⟨[⟨1, 10, "USD"⟩, ⟨2, 200, "USD"⟩],
        [⟨1, 500, "USD"⟩, ⟨2, 200, "USD"⟩], []⟩
      (some ⟨1, 500, "USD"⟩) ⟨2, 200, "USD"⟩ 120 ⟨7, "transfer"⟩
      [⟨7, "transfer"⟩] "Payment" ErrPoint.noErr).store 1 =
      some ⟨1, (10 : ℚ) - 120, "USD"⟩ :=
  ⟨rfl, rfl, by decide, by norm_num,
   (C8_check_uses_cached_balance ⟨[⟨1, 10, "USD"⟩, ⟨2, 200, "USD"⟩],
        [⟨1, 500, "USD"⟩, ⟨2, 200, "USD"⟩], []⟩
      ⟨1, 500, "USD"⟩ ⟨2, 200, "USD"⟩ ⟨1, 10, "USD"⟩ ⟨2, 200, "USD"⟩ 120
      ⟨7, "transfer"⟩ [⟨7, "transfer"⟩] "Payment" rfl rfl (by decide)).1
     (by norm_num)⟩

/-- C10: when a store error is raised after the debit has been issued
(at the credit UPDATE or at the completed-record INSERT), the whole store
transaction rolls back — no balance or record change commits — but the
cache entry for the sender keeps the uncommitted post-debit balance
written at lines 262-265, so the cached sender balance is strictly below
the store's committed balance afterwards. -/
theorem C10_stale_cache_after_rollback (st : GenState) (s receiver srow : Account)
    (amount : ℚ) (chosenType : TransactionType) (types : List TransactionType)
    (d : String) (err : ErrPoint)
    (hs_cache : findAcc st.cache s.bank_account_id = some s)
    (hs : findAcc st.store s.bank_account_id = some srow)
    (hbal : amount ≤ s.balance) (hpos : 0 < amount)
    (herr : err = ErrPoint.atCredit ∨ err = ErrPoint.atCompletedInsert)
    (hne : receiver.bank_account_id ≠ s.bank_account_id) :
    (generate_transaction st (some s) receiver amount chosenType types d err).store
      = st.store ∧
    (generate_transaction st (some s) receiver amount chosenType types d err).txns
      = st.txns ∧
    findAcc (generate_transaction st (some s) receiver amount chosenType types d
        err).cache s.bank_account_id =
      some { s with balance := srow.balance - amount } ∧
    srow.balance - amount < srow.balance := by
  have herr' : err ≠ ErrPoint.atDebit := by rcases herr with rfl | rfl <;> decide
  rw [generate_transaction_debit_eq st s receiver srow amount chosenType types d err
        hbal hs herr']
  have hcache1 : findAcc (cacheSetBalance st.cache s.bank_account_id
      (srow.balance - amount)) s.bank_account_id =
      some { s with balance := srow.balance - amount } := by
    rw [findAcc_cacheSet_self, hs_cache]
    rfl
  rcases herr with rfl | rfl
  · rw [creditPhase_atCredit]
    exact ⟨rfl, rfl, hcache1, by linarith⟩
  · cases hfind : findAcc (storeMap (storeMap st.store s.bank_account_id
        (fun b => b - amount)) receiver.bank_account_id
        (fun b => b + converted_amount (some s) receiver amount))
        receiver.bank_account_id with
    | none =>
        simp only [creditPhase, hfind]
        rw [if_neg (by decide)]
        exact ⟨rfl, rfl, hcache1, by linarith⟩
    | some rrow =>
        simp only [creditPhase, hfind, if_true]
        refine ⟨rfl, rfl, ?_, by linarith⟩
        show findAcc (cacheSetBalance _ receiver.bank_account_id rrow.balance)
            s.bank_account_id = _
        rw [findAcc_cacheSet_ne _ _ (Ne.symm hne)]
        exact hcache1

/-- C10 witness: sender account 1 (balance 400 in cache and store), amount
150, error at the credit UPDATE: store and records revert, the cache entry
for account 1 reads 250 < 400. -/
theorem C10_stale_cache_after_rollback_witness :
    (findAcc [⟨1, 400, "USD"⟩, ⟨2, 200, "USD"⟩] 1 = some ⟨1, 400, "USD"⟩) ∧
    ((150 : ℚ) ≤ 400) ∧ ((0 : ℚ) < 150) ∧
    (ErrPoint.atCredit = ErrPoint.atCredit ∨
      ErrPoint.atCredit = ErrPoint.atCompletedInsert) ∧ ((2 : Nat) ≠ 1) ∧
    ((generate_transaction ⟨[⟨1, 400, "USD"⟩, ⟨2, 200, "USD"⟩],
        [⟨1, 400, "USD"⟩, ⟨2, 200, "USD"⟩], []⟩
      (some ⟨1, 400, "USD"⟩) ⟨2, 200, "USD"⟩ 150 ⟨7, "transfer"⟩
      [⟨7, "transfer"⟩] "Payment" ErrPoint.atCredit).store =
        [⟨1, 400, "USD"⟩, ⟨2, 200, "USD"⟩] ∧
     (generate_transaction ⟨[⟨1, 400, "USD"⟩, ⟨2, 200, "USD"⟩],
        [⟨1, 400, "USD"⟩, ⟨2, 200, "USD"⟩], []⟩
      (some ⟨1, 400, "USD"⟩) ⟨2, 200, "USD"⟩ 150 ⟨7, "transfer"⟩
      [⟨7, "transfer"⟩] "Payment" ErrPoint.atCredit).txns = [] ∧
     findAcc (generate_transaction ⟨[⟨1, 400, "USD"⟩, ⟨2, 200, "USD"⟩],
        [⟨1, 400, "USD"⟩, ⟨2, 200, "USD"⟩], []⟩
      (some ⟨1, 400, "USD"⟩) ⟨2, 200, "USD"⟩ 150 ⟨7, "transfer"⟩
      [⟨7, "transfer"⟩] "Payment" ErrPoint.atCredit).cache 1 =
        some ⟨1, (400 : ℚ) - 150, "USD"⟩ ∧
     (400 : ℚ) - 150 < 400) :=
  ⟨rfl, by norm_num, by norm_num, Or.inl rfl, by decide,
   C10_stale_cache_after_rollback ⟨[⟨1, 400, "USD"⟩, ⟨2, 200, "USD"⟩],
        [⟨1, 400, "USD"⟩, ⟨2, 200, "USD"⟩], []⟩
     ⟨1, 400, "USD"⟩ ⟨2, 200, "USD"⟩ ⟨1, 400, "USD"⟩ 150 ⟨7, "transfer"⟩
     [⟨7, "transfer"⟩] "Payment" ErrPoint.atCredit rfl rfl (by norm_num)
     (by norm_num) (Or.inl rfl) (by decide)⟩

theorem grantInsert_mem {g : List (Nat × Nat)} {x : Nat × Nat} (u aid : Nat)
    (h : x ∈ g) : x ∈ grantInsert g u aid := by
  unfold grantInsert
  split
  · exact h
  · exact List.mem_append_left _ h

theorem grantInsert_self_mem (g : List (Nat × Nat)) (u aid : Nat) :
    (u, aid) ∈ grantInsert g u aid := by
  unfold grantInsert
  split
  · assumption
  · exact List.mem_append_right _ (List.mem_singleton.mpr rfl)

theorem grantInsert_eq_of_mem {g : List (Nat × Nat)} {u aid : Nat}
    (h : (u, aid) ∈ g) : grantInsert g u aid = g := by
  unfold grantInsert
  rw [if_pos h]

theorem foldl_grantInsert_mem {α : Type} (l : List α) (f : α → Nat) (u : Nat)
    {g : List (Nat × Nat)} {x : Nat × Nat} (h : x ∈ g) :
    x ∈ l.foldl (fun acc a => grantInsert acc u (f a)) g := by
  induction l generalizing g with
  | nil => exact h
  | cons a rest ih => exact ih (grantInsert_mem u (f a) h)

theorem foldl_grantInsert_mem_of_mem {α : Type} (f : α → Nat) (u : Nat) {a : α} :
    ∀ (l : List α) (g : List (Nat × Nat)), a ∈ l →
      (u, f a) ∈ l.foldl (fun acc b => grantInsert acc u (f b)) g := by
  intro l
  induction l with
  | nil => intro g ha; cases ha
  | cons b rest ih =>
      intro g ha
      rcases List.mem_cons.1 ha with rfl | ha'
      · exact foldl_grantInsert_mem rest f u (grantInsert_self_mem g u (f a))
      · exact ih _ ha'

theorem foldl_grantInsert_eq {α : Type} (l : List α) (f : α → Nat) (u : Nat)
    (g : List (Nat × Nat)) (h : ∀ a ∈ l, (u, f a) ∈ g) :
    l.foldl (fun acc b => grantInsert acc u (f b)) g = g := by
  induction l with
  | nil => rfl
  | cons b rest ih =>
      have hb := grantInsert_eq_of_mem (h b (List.mem_cons_self b rest))
      simp only [List.foldl_cons, hb]
      exact ih (fun a ha => h a (List.mem_cons_of_mem b ha))

theorem grantByName_mem (s : AchState) {g : List (Nat × Nat)} (u : Nat)
    (nm : String) {x : Nat × Nat} (h : x ∈ g) : x ∈ grantByName s g u nm :=
  foldl_grantInsert_mem _ _ u h

theorem grantByName_mem_of_filter (s : AchState) (g : List (Nat × Nat)) (u : Nat)
    (nm : String) {a : Achievement}
    (ha : a ∈ s.achievements.filter (fun a => a.name = nm)) :
    (u, a.achievement_id) ∈ grantByName s g u nm :=
  foldl_grantInsert_mem_of_mem _ u _ g ha

theorem grantByName_eq (s : AchState) (g : List (Nat × Nat)) (u : Nat)
    (nm : String)
    (h : ∀ a ∈ s.achievements.filter (fun a => a.name = nm),
        (u, a.achievement_id) ∈ g) :
    grantByName s g u nm = g :=
  foldl_grantInsert_eq _ _ u g h

/-- Pairs that `evalUser` is required to have inserted for user `u`. -/
def requiredPairs (s : AchState) (u : Nat) : List (Nat × Nat) :=
  (if 1 ≤ tx_count s u then
    (s.achievements.filter (fun a => a.name = "First Transaction")).map
      (fun a => (u, a.achievement_id)) else [])
  ++ (if 50 ≤ tx_count s u then
    (s.achievements.filter (fun a => a.name = "Active User")).map
      (fun a => (u, a.achievement_id)) else [])
  ++ (if 10000 ≤ total_received s u then
    (s.achievements.filter (fun a => a.name = "Savings Master")).map
      (fun a => (u, a.achievement_id)) else [])

theorem evalUser_mem (s : AchState) {g : List (Nat × Nat)} (u : Nat)
    {x : Nat × Nat} (h : x ∈ g) : x ∈ evalUser s g u := by
  unfold evalUser
  split <;> split <;> split <;>
    first
      | exact grantByName_mem s u _ (grantByName_mem s u _ (grantByName_mem s u _ h))
      | exact grantByName_mem s u _ (grantByName_mem s u _ h)
      | exact grantByName_mem s u _ h
      | exact h

theorem requiredPairs_mem_evalUser (s : AchState) (g : List (Nat × Nat)) (u : Nat)
    {x : Nat × Nat} (hx : x ∈ requiredPairs s u) : x ∈ evalUser s g u := by
  unfold requiredPairs at hx
  unfold evalUser
  dsimp only
  rcases List.mem_append.1 hx with hx | hx
  · rcases List.mem_append.1 hx with hx | hx
    · by_cases h1 : 1 ≤ tx_count s u
      · rw [if_pos h1] at hx
        rcases List.mem_map.1 hx with ⟨a, ha, rfl⟩
        rw [if_pos h1]
        have hbase := grantByName_mem_of_filter s g u "First Transaction" ha
        split
        · split
          · exact grantByName_mem s u _ (grantByName_mem s u _ hbase)
          · exact grantByName_mem s u _ hbase
        · split
          · exact grantByName_mem s u _ hbase
          · exact hbase
      · rw [if_neg h1] at hx; cases hx
    · by_cases h2 : 50 ≤ tx_count s u
      · rw [if_pos h2] at hx
        rcases List.mem_map.1 hx with ⟨a, ha, rfl⟩
        rw [if_pos h2]
        have hbase := grantByName_mem_of_filter s
          (if 1 ≤ tx_count s u then grantByName s g u "First Transaction" else g)
          u "Active User" ha
        split
        · exact grantByName_mem s u _ hbase
        · exact hbase
      · rw [if_neg h2] at hx; cases hx
  · by_cases h3 : 10000 ≤ total_received s u
    · rw [if_pos h3] at hx
      rcases List.mem_map.1 hx with ⟨a, ha, rfl⟩
      rw [if_pos h3]
      exact grantByName_mem_of_filter s _ u "Savings Master" ha
    · rw [if_neg h3] at hx; cases hx

theorem evalUser_eq (s : AchState) (g : List (Nat × Nat)) (u : Nat)
    (h : ∀ x ∈ requiredPairs s u, x ∈ g) : evalUser s g u = g := by
  have hfi : 1 ≤ tx_count s u →
      ∀ a ∈ s.achievements.filter (fun a => a.name = "First Transaction"),
        (u, a.achievement_id) ∈ g := by
    intro hc a ha
    refine h _ ?_
    unfold requiredPairs
    exact List.mem_append_left _ (List.mem_append_left _
      (by rw [if_pos hc]; exact List.mem_map_of_mem _ ha))
  have hau : 50 ≤ tx_count s u →
      ∀ a ∈ s.achievements.filter (fun a => a.name = "Active User"),
        (u, a.achievement_id) ∈ g := by
    intro hc a ha
    refine h _ ?_
    unfold requiredPairs
    exact List.mem_append_left _ (List.mem_append_right _
      (by rw [if_pos hc]; exact List.mem_map_of_mem _ ha))
  have hsm : 10000 ≤ total_received s u →
      ∀ a ∈ s.achievements.filter (fun a => a.name = "Savings Master"),
        (u, a.achievement_id) ∈ g := by
    intro hc a ha
    refine h _ ?_
    unfold requiredPairs
    exact List.mem_append_right _ (by rw [if_pos hc]; exact List.mem_map_of_mem _ ha)
  unfold evalUser
  dsimp only
  by_cases h1 : 1 ≤ tx_count s u
  · rw [if_pos h1, grantByName_eq s g u _ (hfi h1)]
    by_cases h2 : 50 ≤ tx_count s u
    · rw [if_pos h2, grantByName_eq s g u _ (hau h2)]
      by_cases h3 : 10000 ≤ total_received s u
      · rw [if_pos h3, grantByName_eq s g u _ (hsm h3)]
      · rw [if_neg h3]
    · rw [if_neg h2]
      by_cases h3 : 10000 ≤ total_received s u
      · rw [if_pos h3, grantByName_eq s g u _ (hsm h3)]
      · rw [if_neg h3]
  · rw [if_neg h1]
    by_cases h2 : 50 ≤ tx_count s u
    · rw [if_pos h2, grantByName_eq s g u _ (hau h2)]
      by_cases h3 : 10000 ≤ total_received s u
      · rw [if_pos h3, grantByName_eq s g u _ (hsm h3)]
      · rw [if_neg h3]
    · rw [if_neg h2]
      by_cases h3 : 10000 ≤ total_received s u
      · rw [if_pos h3, grantByName_eq s g u _ (hsm h3)]
      · rw [if_neg h3]

theorem foldl_evalUser_mem (s : AchState) (l : List Nat) {g : List (Nat × Nat)}
    {x : Nat × Nat} (h : x ∈ g) : x ∈ l.foldl (evalUser s) g := by
  induction l generalizing g with
  | nil => exact h
  | cons v rest ih => exact ih (evalUser_mem s v h)

theorem requiredPairs_mem_foldl (s : AchState) :
    ∀ (l : List Nat) (g : List (Nat × Nat)) (u : Nat), u ∈ l →
      ∀ x ∈ requiredPairs s u, x ∈ l.foldl (evalUser s) g := by
  intro l
  induction l with
  | nil => intro g u hu; cases hu
  | cons v rest ih =>
      intro g u hu x hx
      rcases List.mem_cons.1 hu with rfl | hu'
      · exact foldl_evalUser_mem s rest (requiredPairs_mem_evalUser s g u hx)
      · exact ih _ u hu' x hx

theorem foldl_evalUser_eq (s : AchState) :
    ∀ (l : List Nat) (g : List (Nat × Nat)), (∀ u ∈ l, evalUser s g u = g) →
      l.foldl (evalUser s) g = g := by
  intro l
  induction l with
  | nil => intro g _; rfl
  | cons v rest ih =>
      intro g h
      have hv := h v (List.mem_cons_self v rest)
      simp only [List.foldl_cons, hv]
      exact ih g (fun u hu => h u (List.mem_cons_of_mem v hu))

theorem update_achievements_eq (s : AchState) :
    update_achievements s =
      { s with user_achievements :=
          ((s.users.filter (fun u => 0 < tx_count s u)).foldl (evalUser s)
            s.user_achievements) } := rfl

theorem tx_count_set_grants (s : AchState) (g' : List (Nat × Nat)) (u : Nat) :
    tx_count { s with user_achievements := g' } u = tx_count s u := rfl

theorem evalUser_set_grants (s : AchState) (g' : List (Nat × Nat)) :
    evalUser { s with user_achievements := g' } = evalUser s := rfl

/-- C7: the Achievement Evaluator is idempotent — running
`update_achievements` twice in a row on any store state yields the same
grant table as running it once (the second run inserts nothing new), and
each grant insertion of an already-held (user, achievement) pair is a
silent no-op. -/
theorem C7_evaluator_idempotent :
    (∀ s : AchState,
      update_achievements (update_achievements s) = update_achievements s) ∧
    (∀ (g : List (Nat × Nat)) (u aid : Nat),
      (u, aid) ∈ g → grantInsert g u aid = g) := by
  constructor
  · intro s
    have hfix : (s.users.filter (fun u => 0 < tx_count s u)).foldl (evalUser s)
        ((s.users.filter (fun u => 0 < tx_count s u)).foldl (evalUser s)
          s.user_achievements)
        = (s.users.filter (fun u => 0 < tx_count s u)).foldl (evalUser s)
            s.user_achievements := by
      apply foldl_evalUser_eq
      intro u hu
      apply evalUser_eq
      intro x hx
      exact requiredPairs_mem_foldl s _ _ u hu x hx
    rw [update_achievements_eq s, update_achievements_eq]
    dsimp only
    simp only [tx_count_set_grants, evalUser_set_grants]
    rw [hfix]
  · intro g u aid h
    exact grantInsert_eq_of_mem h

/-- C7 witness: scenario E — a user with one received transaction and no
prior grants is granted First Transaction once; the second run adds
nothing, and re-inserting a held pair is a no-op. -/
theorem C7_evaluator_idempotent_witness :
    (update_achievements (update_achievements
        ⟨[4], [(2, 4)], [(2, 300)], [⟨11, "First Transaction"⟩,
          ⟨12, "Active User"⟩, ⟨13, "Savings Master"⟩], []⟩) =
      update_achievements
        ⟨[4], [(2, 4)], [(2, 300)], [⟨11, "First Transaction"⟩,
          ⟨12, "Active User"⟩, ⟨13, "Savings Master"⟩], []⟩) ∧
    ((4, 11) ∈ [(4, 11)] ∧ grantInsert [(4, 11)] 4 11 = [(4, 11)]) :=
  ⟨C7_evaluator_idempotent.1
     ⟨[4], [(2, 4)], [(2, 300)], [⟨11, "First Transaction"⟩,
       ⟨12, "Active User"⟩, ⟨13, "Savings Master"⟩], []⟩,
   by decide,
   C7_evaluator_idempotent.2 [(4, 11)] 4 11 (by decide)⟩

theorem ofDigits_replicate_zero (b k : Nat) :
    Nat.ofDigits b (List.replicate k 0) = 0 := by
  induction k with
  | zero => rfl
  | succ m ih =>
      rw [List.replicate_succ, Nat.ofDigits_cons, ih]
      ring

theorem charToDigit_digitChar {d : Nat} (h : d < 10) :
    charToDigit (Nat.digitChar d) = d := by
  unfold charToDigit
  interval_cases d <;> rfl

theorem readDecimal_pad6 (n : Nat) : readDecimal (pad6 (decimalDigitsBE n)) = n := by
  unfold readDecimal pad6 decimalDigitsBE
  rw [List.map_append, List.map_replicate, List.map_reverse, List.map_map]
  have hdig : List.map (charToDigit ∘ Nat.digitChar) (Nat.digits 10 n) =
      Nat.digits 10 n := by
    rw [List.map_congr_left (g := id), List.map_id]
    intro d hd
    exact charToDigit_digitChar (Nat.digits_lt_base (by norm_num) hd)
  rw [hdig]
  have hzero : charToDigit '0' = 0 := rfl
  rw [hzero, List.reverse_append, List.reverse_reverse, List.reverse_replicate,
      Nat.ofDigits_append, Nat.ofDigits_digits, ofDigits_replicate_zero]
  simp

theorem formatAccountNumber_inj (name : String) {m n : Nat}
    (h : formatAccountNumber name m = formatAccountNumber name n) : m = n := by
  unfold formatAccountNumber at h
  have hdata := congrArg String.data h
  rw [String.data_append, String.data_append] at hdata
  have hlist : pad6 (decimalDigitsBE m) = pad6 (decimalDigitsBE n) :=
    List.append_cancel_left hdata
  have := congrArg readDecimal hlist
  rwa [readDecimal_pad6, readDecimal_pad6] at this

theorem find?_rails_update (rails : List PaymentSystem) (psId : Nat)
    (ps : PaymentSystem)
    (h : rails.find? (fun r => r.payment_system_id = psId) = some ps) :
    (rails.map (fun r =>
        if r.payment_system_id = psId then { r with last_number := r.last_number + 1 }
        else r)).find? (fun r => r.payment_system_id = psId) =
      some { ps with last_number := ps.last_number + 1 } := by
  rw [List.find?_map]
  have hpg : ((fun r : PaymentSystem => decide (r.payment_system_id = psId)) ∘ fun r =>
      if r.payment_system_id = psId then { r with last_number := r.last_number + 1 }
      else r)
      = (fun r : PaymentSystem => decide (r.payment_system_id = psId)) := by
    funext r
    by_cases hr : r.payment_system_id = psId <;> simp [hr]
  rw [hpg, h]
  have hps : ps.payment_system_id = psId := by
    have := List.find?_some (p := fun r : PaymentSystem => r.payment_system_id = psId) h
    simpa using this
  simp [hps]

theorem issueRun_numbers (psId owner_id : Nat) (balance : ℚ) (currency : String) :
    ∀ (k : Nat) (st : AccountState) (ps : PaymentSystem),
      st.rails.find? (fun r => r.payment_system_id = psId) = some ps →
      (issueRun st psId owner_id balance currency k).2 =
        (List.range k).map
          (fun i => formatAccountNumber ps.payment_system (ps.last_number + i)) := by
  intro k
  induction k with
  | zero => intro st ps h; rfl
  | succ m ih =>
      intro st ps h
      have hcreate : create_account st psId owner_id balance currency false =
          ({ rails := st.rails.map (fun r =>
                if r.payment_system_id = psId then
                  { r with last_number := r.last_number + 1 } else r),
             bank_accounts := st.bank_accounts ++
               [{ account_number := formatAccountNumber ps.payment_system ps.last_number,
                  balance := balance, currency := currency, owner_id := owner_id }] },
           some (formatAccountNumber ps.payment_system ps.last_number)) := by
        unfold create_account
        rw [h]
        simp
      have hnext := find?_rails_update st.rails psId ps h
      have ihm := ih (create_account st psId owner_id balance currency false).1
        { ps with last_number := ps.last_number + 1 }
        (by rw [hcreate]; exact hnext)
      rw [hcreate] at ihm
      unfold issueRun
      rw [hcreate]
      dsimp only at ihm ⊢
      rw [ihm, List.range_succ_eq_map, List.map_cons, List.map_map]
      refine congrArg₂ _ (congrArg _ (Nat.add_zero _).symm) ?_
      refine List.map_congr_left ?_
      intro i _
      exact congrArg (formatAccountNumber ps.payment_system) (by omega)

/-- C9: for a given rail, a run of successive `create_account` calls
issues the numbers formatted from consecutive counter values
`last_number, last_number + 1, ...` (hence strictly increasing counters),
these account-number strings are pairwise distinct, and an aborted unit
rolls back the counter advance together with the row insert (the state is
returned unchanged). -/
theorem C9_account_number_allocation (st : AccountState) (psId owner_id : Nat)
    (balance : ℚ) (currency : String) (k : Nat) (ps : PaymentSystem)
    (h : st.rails.find? (fun r => r.payment_system_id = psId) = some ps) :
    (issueRun st psId owner_id balance currency k).2 =
      (List.range k).map
        (fun i => formatAccountNumber ps.payment_system (ps.last_number + i)) ∧
    ((issueRun st psId owner_id balance currency k).2).Pairwise (· ≠ ·) ∧
    create_account st psId owner_id balance currency true = (st, none) := by
  have hn := issueRun_numbers psId owner_id balance currency k st ps h
  refine ⟨hn, ?_, ?_⟩
  · rw [hn]
    refine List.Pairwise.map _ ?_ (List.pairwise_lt_range k)
    intro a b hab heq
    have := formatAccountNumber_inj ps.payment_system heq
    omega
  · unfold create_account
    rw [h]
    simp

/-- C9 witness: three successive calls on a rail named VISA with counter 7
issue VISA000007, VISA000008, VISA000009 — pairwise distinct — and an
aborted call leaves the state untouched. -/
theorem C9_account_number_allocation_witness :
    (([⟨1, "VISA", 7⟩] : List PaymentSystem).find?
        (fun r => r.payment_system_id = 1) = some ⟨1, "VISA", 7⟩) ∧
    ((issueRun ⟨[⟨1, "VISA", 7⟩], []⟩ 1 4 100 "USD" 3).2 =
      (List.range 3).map (fun i => formatAccountNumber "VISA" (7 + i)) ∧
     ((issueRun ⟨[⟨1, "VISA", 7⟩], []⟩ 1 4 100 "USD" 3).2).Pairwise (· ≠ ·) ∧
     create_account ⟨[⟨1, "VISA", 7⟩], []⟩ 1 4 100 "USD" true =
       (⟨[⟨1, "VISA", 7⟩], []⟩, none)) :=
  ⟨rfl, C9_account_number_allocation ⟨[⟨1, "VISA", 7⟩], []⟩ 1 4 100 "USD" 3
    ⟨1, "VISA", 7⟩ rfl⟩
